import Mathlib

/-!
Verification of the framework cost calculator.

The Python source (`cost_calculator.py`, `roi_analyzer.py`) is embedded
shallowly: machine floats become exact rationals (ℚ), Python `round`
becomes round-half-to-even on rationals, Python dicts of named results
become structures, and Python's truthy `or` on the optional token count
becomes an explicit match.  Requests and token counts are Python ints,
embedded as ℤ.
-/

/-- The closed enumeration of model providers, in declaration order. -/
inductive ModelProvider where
  | openai_gpt4o
  | openai_gpt4o_mini
  | claude_35_sonnet
  | local_llm
deriving DecidableEq

/-- The closed enumeration of frameworks, in declaration order. -/
inductive Framework where
  | autogen
  | crewai
  | langchain
  | langgraph
  | semantic_kernel
deriving DecidableEq

/-- 2025 LLM pricing data (per 1M tokens). -/
structure PricingData where
  input_cost : ℚ
  output_cost : ℚ
deriving DecidableEq

/-- Average cost assuming 60% input, 40% output token ratio. -/
def PricingData.average_cost (p : PricingData) : ℚ :=
  p.input_cost * (6/10) + p.output_cost * (4/10)

/-- The static model pricing registry (`MODEL_PRICING`). -/
def MODEL_PRICING : ModelProvider → PricingData
  | .openai_gpt4o => ⟨5, 20⟩
  | .openai_gpt4o_mini => ⟨15/100, 60/100⟩
  | .claude_35_sonnet => ⟨3, 15⟩
  | .local_llm => ⟨5/100, 5/100⟩

/-- Framework efficiency and overhead metadata. -/
structure FrameworkMetadata where
  avg_tokens_per_request : ℤ
  efficiency_score : ℚ
  overhead_multiplier : ℚ
  description : String
deriving DecidableEq

/-- The static framework registry (`FRAMEWORK_METADATA`). -/
def FRAMEWORK_METADATA : Framework → FrameworkMetadata
  | .semantic_kernel => ⟨1180 + 620, 96/100, 104/100, "Enterprise integration"⟩
  | .autogen => ⟨1320 + 780, 93/100, 112/100, "Research & development"⟩
  | .crewai => ⟨1450 + 850, 90/100, 115/100, "Multi-agent systems"⟩
  | .langchain => ⟨1580 + 950, 87/100, 116/100, "Flexible applications"⟩
  | .langgraph => ⟨1680 + 1080, 84/100, 120/100, "Stateful workflows"⟩

/-- Round a rational to the nearest integer, ties to even: the rounding
mode of Python's builtin `round`. -/
def roundHalfEven (q : ℚ) : ℤ :=
  if q - ⌊q⌋ < 1/2 then ⌊q⌋
  else if 1/2 < q - ⌊q⌋ then ⌊q⌋ + 1
  else if ⌊q⌋ % 2 = 0 then ⌊q⌋ else ⌊q⌋ + 1

/-- Python's `round(q, n)` on exact rationals. -/
def pyRound (q : ℚ) (n : ℕ) : ℚ :=
  (roundHalfEven (q * 10 ^ n) : ℚ) / 10 ^ n

/-- Python's truthy `custom_tokens or fallback` on an optional int:
`None` and `0` select the fallback, every other value is kept. -/
def pyOrInt (custom : Option ℤ) (fallback : ℤ) : ℤ :=
  match custom with
  | none => fallback
  | some t => if t = 0 then fallback else t

/-- `FrameworkCostCalculator.calculate_cost_per_request`. -/
def calculate_cost_per_request (framework : Framework) (model : ModelProvider)
    (custom_tokens : Option ℤ) : ℚ :=
  let framework_data := FRAMEWORK_METADATA framework
  let pricing := MODEL_PRICING model
  let total_tokens : ℚ := (pyOrInt custom_tokens framework_data.avg_tokens_per_request : ℤ)
  let adjusted_tokens := total_tokens * framework_data.overhead_multiplier
  let cost_per_million := pricing.average_cost
  (adjusted_tokens / 1000000) * cost_per_million

/-- The result dict of `calculate_monthly_cost`. -/
structure CostBreakdown where
  api_cost : ℚ
  infrastructure_cost : ℚ
  monitoring_cost : ℚ
  total_cost : ℚ
  cost_per_request : ℚ
deriving DecidableEq

/-- `FrameworkCostCalculator._estimate_infrastructure_cost`. -/
def _estimate_infrastructure_cost (requests_per_month : ℤ) : ℚ :=
  if requests_per_month < 1000 then 35
  else if requests_per_month < 10000 then
    85 + ((requests_per_month : ℚ) - 1000) * (1/100)
  else if requests_per_month < 100000 then
    320 + ((requests_per_month : ℚ) - 10000) * (5/1000)
  else 850 + ((requests_per_month : ℚ) - 100000) * (2/1000)

/-- `FrameworkCostCalculator._estimate_monitoring_cost`. -/
def _estimate_monitoring_cost (requests_per_month : ℤ) : ℚ :=
  if requests_per_month < 1000 then 15
  else if requests_per_month < 10000 then 45
  else if requests_per_month < 100000 then 125
  else 250

/-- `FrameworkCostCalculator.calculate_monthly_cost`. -/
def calculate_monthly_cost (framework : Framework) (model : ModelProvider)
    (requests_per_month : ℤ) (custom_tokens : Option ℤ) : CostBreakdown :=
  let cost_per_request := calculate_cost_per_request framework model custom_tokens
  let api_cost := cost_per_request * (requests_per_month : ℚ)
  let infrastructure_cost := _estimate_infrastructure_cost requests_per_month
  let monitoring_cost := _estimate_monitoring_cost requests_per_month
  let total_cost := api_cost + infrastructure_cost + monitoring_cost
  { api_cost := pyRound api_cost 2
    infrastructure_cost := pyRound infrastructure_cost 2
    monitoring_cost := pyRound monitoring_cost 2
    total_cost := pyRound total_cost 2
    cost_per_request := pyRound cost_per_request 4 }

/-- Position in the `Framework` declaration order (the iteration order of
`for framework in Framework` and the dict insertion order). -/
def frameworkIndex : Framework → ℕ
  | .autogen => 0
  | .crewai => 1
  | .langchain => 2
  | .langgraph => 3
  | .semantic_kernel => 4

/-- The iteration order of `for framework in Framework`: declaration order. -/
def frameworkDeclarationOrder : List Framework :=
  [.autogen, .crewai, .langchain, .langgraph, .semantic_kernel]

/-- The framework id string (`framework.value`). -/
def Framework.value : Framework → String
  | .autogen => "autogen"
  | .crewai => "crewai"
  | .langchain => "langchain"
  | .langgraph => "langgraph"
  | .semantic_kernel => "semantic_kernel"

/-- The display name `framework.value.replace("_", " ").title()`. -/
def frameworkDisplayName : Framework → String
  | .autogen => "Autogen"
  | .crewai => "Crewai"
  | .langchain => "Langchain"
  | .langgraph => "Langgraph"
  | .semantic_kernel => "Semantic Kernel"

/-- One entry of the `compare_frameworks` result. -/
structure ComparisonEntry where
  framework : Framework
  costs : CostBreakdown
  framework_name : String
  description : String
deriving DecidableEq

/-- The order produced by `sorted(results.items(), key=total_cost)`: Python's
sort is stable and the items are inserted in declaration order, whose indices
are strictly increasing, so the output is exactly the unique ordering by the
lexicographic pair (total_cost, declaration index). -/
def comparisonOrder (a b : ComparisonEntry) : Prop :=
  a.costs.total_cost < b.costs.total_cost ∨
    (a.costs.total_cost = b.costs.total_cost ∧
      frameworkIndex a.framework ≤ frameworkIndex b.framework)

instance : DecidableRel comparisonOrder := fun a b => by
  unfold comparisonOrder; infer_instance

instance : IsTotal ComparisonEntry comparisonOrder :=
  ⟨fun a b => by
    unfold comparisonOrder
    rcases lt_trichotomy a.costs.total_cost b.costs.total_cost with h | h | h
    · exact Or.inl (Or.inl h)
    · rcases Nat.le_total (frameworkIndex a.framework) (frameworkIndex b.framework) with hi | hi
      · exact Or.inl (Or.inr ⟨h, hi⟩)
      · exact Or.inr (Or.inr ⟨h.symm, hi⟩)
    · exact Or.inr (Or.inl h)⟩

instance : IsTrans ComparisonEntry comparisonOrder :=
  ⟨fun a b c hab hbc => by
    unfold comparisonOrder at *
    rcases hab with h1 | ⟨h1, h1i⟩ <;> rcases hbc with h2 | ⟨h2, h2i⟩
    · exact Or.inl (h1.trans h2)
    · exact Or.inl (lt_of_lt_of_eq h1 h2)
    · exact Or.inl (lt_of_eq_of_lt h1 h2)
    · exact Or.inr ⟨h1.trans h2, h1i.trans h2i⟩⟩

/-- `FrameworkCostCalculator.compare_frameworks`. -/
def compare_frameworks (model : ModelProvider) (requests_per_month : ℤ)
    (custom_tokens : Option ℤ) : List ComparisonEntry :=
  List.insertionSort comparisonOrder
    (frameworkDeclarationOrder.map fun framework =>
      { framework := framework
        costs := calculate_monthly_cost framework model requests_per_month custom_tokens
        framework_name := frameworkDisplayName framework
        description := (FRAMEWORK_METADATA framework).description })

/-- The result dict of `estimate_migration_savings`. -/
structure MigrationResult where
  current_monthly_cost : ℚ
  new_monthly_cost : ℚ
  monthly_savings : ℚ
  annual_savings : ℚ
  savings_percentage : ℚ
deriving DecidableEq

/-- `FrameworkCostCalculator.estimate_migration_savings`. -/
def estimate_migration_savings (from_framework to_framework : Framework)
    (model : ModelProvider) (requests_per_month : ℤ) : MigrationResult :=
  let current_cost := calculate_monthly_cost from_framework model requests_per_month none
  let new_cost := calculate_monthly_cost to_framework model requests_per_month none
  let monthly_savings := current_cost.total_cost - new_cost.total_cost
  let annual_savings := monthly_savings * 12
  let savings_percentage := (monthly_savings / current_cost.total_cost) * 100
  { current_monthly_cost := current_cost.total_cost
    new_monthly_cost := new_cost.total_cost
    monthly_savings := pyRound monthly_savings 2
    annual_savings := pyRound annual_savings 2
    savings_percentage := pyRound savings_percentage 1 }

/-- `ROIAnalyzer._calculate_npv`.  The Python code first computes
`monthly_discount_rate = (1 + 0.10) ** (1 / 12) - 1`, an irrational number
with no exact rational value, and then runs a loop adding one discounted cash
flow per month; the embedding takes the monthly rate as an explicit parameter
and models the loop verbatim over it. -/
def _calculate_npv (monthly_discount_rate : ℚ) (initial_investment : ℚ)
    (monthly_cash_flow : ℚ) (periods : ℕ) : ℚ :=
  pyRound
    ((List.range periods).foldl
      (fun npv month => npv + monthly_cash_flow / (1 + monthly_discount_rate) ^ (month + 1))
      (-initial_investment)) 2

/-! ### Rounding toolkit -/

theorem roundHalfEven_intCast (n : ℤ) : roundHalfEven (n : ℚ) = n := by
  norm_num [roundHalfEven]

theorem floor_le_roundHalfEven (q : ℚ) : ⌊q⌋ ≤ roundHalfEven q := by
  unfold roundHalfEven; split_ifs <;> omega

theorem roundHalfEven_le_floor_add_one (q : ℚ) : roundHalfEven q ≤ ⌊q⌋ + 1 := by
  unfold roundHalfEven; split_ifs <;> omega

theorem roundHalfEven_mono {x y : ℚ} (h : x ≤ y) : roundHalfEven x ≤ roundHalfEven y := by
  rcases lt_or_le ⌊x⌋ ⌊y⌋ with hf | hf
  · calc roundHalfEven x ≤ ⌊x⌋ + 1 := roundHalfEven_le_floor_add_one x
      _ ≤ ⌊y⌋ := by omega
      _ ≤ roundHalfEven y := floor_le_roundHalfEven y
  · have he : ⌊x⌋ = ⌊y⌋ := le_antisymm (Int.floor_le_floor h) hf
    have heq : ((⌊x⌋ : ℤ) : ℚ) = ((⌊y⌋ : ℤ) : ℚ) := by exact_mod_cast he
    have hfr : x - ((⌊x⌋ : ℤ) : ℚ) ≤ y - ((⌊y⌋ : ℤ) : ℚ) := by rw [heq]; linarith
    unfold roundHalfEven
    split_ifs <;> first | omega | linarith

theorem pyRound_mono {x y : ℚ} (n : ℕ) (h : x ≤ y) : pyRound x n ≤ pyRound y n := by
  unfold pyRound
  have hp : (0 : ℚ) < 10 ^ n := by positivity
  have hm : x * 10 ^ n ≤ y * 10 ^ n := mul_le_mul_of_nonneg_right h hp.le
  have := roundHalfEven_mono hm
  have hc : ((roundHalfEven (x * 10 ^ n) : ℤ) : ℚ) ≤ ((roundHalfEven (y * 10 ^ n) : ℤ) : ℚ) := by
    exact_mod_cast this
  exact (div_le_div_right hp).mpr hc

theorem pyRound_int_div_pow (a : ℤ) (n : ℕ) :
    pyRound ((a : ℚ) / 10 ^ n) n = (a : ℚ) / 10 ^ n := by
  unfold pyRound
  have hp : (10 : ℚ) ^ n ≠ 0 := by positivity
  have hkey : ((a : ℚ) / 10 ^ n) * 10 ^ n = (a : ℚ) := by field_simp
  rw [hkey, roundHalfEven_intCast]

theorem abs_roundHalfEven_sub (q : ℚ) : |(roundHalfEven q : ℚ) - q| ≤ 1 / 2 := by
  have h1 := Int.floor_le q
  have h2 := Int.lt_floor_add_one q
  unfold roundHalfEven
  split_ifs with ha hb hc <;> (rw [abs_le]; push_cast at *; constructor <;> linarith)

theorem abs_pyRound_sub (q : ℚ) (n : ℕ) : |pyRound q n - q| ≤ 1 / (2 * 10 ^ n) := by
  have hp : (0 : ℚ) < 10 ^ n := by positivity
  have hkey : pyRound q n - q = ((roundHalfEven (q * 10 ^ n) : ℚ) - q * 10 ^ n) / 10 ^ n := by
    unfold pyRound; field_simp; ring
  rw [hkey, abs_div, abs_of_pos hp]
  rw [div_le_div_iff hp (by positivity)]
  have := abs_roundHalfEven_sub (q * 10 ^ n)
  calc |(roundHalfEven (q * 10 ^ n) : ℚ) - q * 10 ^ n| * (2 * 10 ^ n)
      ≤ (1 / 2) * (2 * 10 ^ n) := by
        exact mul_le_mul_of_nonneg_right this (by positivity)
    _ = 1 * 10 ^ n := by ring

theorem pyRound_zero (n : ℕ) : pyRound (0 : ℚ) n = 0 := by
  unfold pyRound
  rw [show (0 : ℚ) * 10 ^ n = ((0 : ℤ) : ℚ) by norm_num, roundHalfEven_intCast]
  norm_num

theorem pyRound_fixed_sub (x y : ℚ) (n : ℕ) :
    pyRound (pyRound x n - pyRound y n) n = pyRound x n - pyRound y n := by
  have hx : pyRound x n = ((roundHalfEven (x * 10 ^ n) : ℤ) : ℚ) / 10 ^ n := rfl
  have hy : pyRound y n = ((roundHalfEven (y * 10 ^ n) : ℤ) : ℚ) / 10 ^ n := rfl
  rw [hx, hy, div_sub_div_same]
  rw [show ((roundHalfEven (x * 10 ^ n) : ℤ) : ℚ) - ((roundHalfEven (y * 10 ^ n) : ℤ) : ℚ)
      = ((roundHalfEven (x * 10 ^ n) - roundHalfEven (y * 10 ^ n) : ℤ) : ℚ) by push_cast; ring]
  exact pyRound_int_div_pow _ n

/-! ### Registry facts -/

theorem avg_tokens_pos (F : Framework) : 0 < (FRAMEWORK_METADATA F).avg_tokens_per_request := by
  cases F <;> norm_num [FRAMEWORK_METADATA]

theorem overhead_pos (F : Framework) : 0 < (FRAMEWORK_METADATA F).overhead_multiplier := by
  cases F <;> norm_num [FRAMEWORK_METADATA]

theorem average_cost_pos (M : ModelProvider) : 0 < (MODEL_PRICING M).average_cost := by
  cases M <;> norm_num [ MODEL_PRICING, PricingData.average_cost]

theorem frameworkIndex_inj (f g : Framework) (h : frameworkIndex f = frameworkIndex g) :
    f = g := by
  cases f <;> cases g <;> first | rfl | (exfalso; simp [frameworkIndex] at h)

theorem pyOrInt_pos (tokens : Option ℤ) (fallback : ℤ) (hfall : 0 < fallback)
    (htok : ∀ t ∈ tokens, 0 < t) : 0 < pyOrInt tokens fallback := by
  cases tokens with
  | none => exact hfall
  | some t =>
    show (0 : ℤ) < if t = 0 then fallback else t
    split_ifs with h
    · exact hfall
    · exact htok t rfl

theorem cpr_nonneg (F : Framework) (M : ModelProvider) (tokens : Option ℤ)
    (htok : ∀ t ∈ tokens, 0 < t) : 0 ≤ calculate_cost_per_request F M tokens := by
  unfold calculate_cost_per_request
  have h1 : (0 : ℚ) ≤ (pyOrInt tokens (FRAMEWORK_METADATA F).avg_tokens_per_request : ℤ) := by
    exact_mod_cast (pyOrInt_pos tokens _ (avg_tokens_pos F) htok).le
  have h2 := (overhead_pos F).le
  have h3 := (average_cost_pos M).le
  positivity

/-! ### Tier function facts -/

theorem infra_ge_35 (r : ℤ) : 35 ≤ _estimate_infrastructure_cost r := by
  unfold _estimate_infrastructure_cost
  split_ifs with h1 h2 h3 <;> qify at * <;> linarith

theorem mon_ge_15 (r : ℤ) : 15 ≤ _estimate_monitoring_cost r := by
  unfold _estimate_monitoring_cost
  split_ifs <;> norm_num

theorem infra_mono {r1 r2 : ℤ} (h : r1 ≤ r2) :
    _estimate_infrastructure_cost r1 ≤ _estimate_infrastructure_cost r2 := by
  unfold _estimate_infrastructure_cost
  split_ifs <;> qify at * <;> linarith

theorem mon_mono {r1 r2 : ℤ} (h : r1 ≤ r2) :
    _estimate_monitoring_cost r1 ≤ _estimate_monitoring_cost r2 := by
  unfold _estimate_monitoring_cost
  split_ifs <;> qify at * <;> linarith

/-! ### Field accessors of the result records -/

theorem monthly_total_def (F : Framework) (M : ModelProvider) (r : ℤ) (tokens : Option ℤ) :
    (calculate_monthly_cost F M r tokens).total_cost
      = pyRound (calculate_cost_per_request F M tokens * (r : ℚ)
          + _estimate_infrastructure_cost r + _estimate_monitoring_cost r) 2 := rfl

theorem monthly_api_def (F : Framework) (M : ModelProvider) (r : ℤ) (tokens : Option ℤ) :
    (calculate_monthly_cost F M r tokens).api_cost
      = pyRound (calculate_cost_per_request F M tokens * (r : ℚ)) 2 := rfl

theorem monthly_infra_def (F : Framework) (M : ModelProvider) (r : ℤ) (tokens : Option ℤ) :
    (calculate_monthly_cost F M r tokens).infrastructure_cost
      = pyRound (_estimate_infrastructure_cost r) 2 := rfl

theorem monthly_mon_def (F : Framework) (M : ModelProvider) (r : ℤ) (tokens : Option ℤ) :
    (calculate_monthly_cost F M r tokens).monitoring_cost
      = pyRound (_estimate_monitoring_cost r) 2 := rfl

theorem migration_monthly_def (A B : Framework) (M : ModelProvider) (r : ℤ) :
    (estimate_migration_savings A B M r).monthly_savings
      = pyRound ((calculate_monthly_cost A M r none).total_cost
          - (calculate_monthly_cost B M r none).total_cost) 2 := rfl

theorem migration_current_def (A B : Framework) (M : ModelProvider) (r : ℤ) :
    (estimate_migration_savings A B M r).current_monthly_cost
      = (calculate_monthly_cost A M r none).total_cost := rfl

theorem migration_pct_def (A B : Framework) (M : ModelProvider) (r : ℤ) :
    (estimate_migration_savings A B M r).savings_percentage
      = pyRound ((((calculate_monthly_cost A M r none).total_cost
            - (calculate_monthly_cost B M r none).total_cost)
          / (calculate_monthly_cost A M r none).total_cost) * 100) 1 := rfl

/-! ### Loop-to-sum lemma for the NPV computation -/

theorem npvLoop_eq_sum (rate cash init : ℚ) (n : ℕ) :
    (List.range n).foldl (fun npv month => npv + cash / (1 + rate) ^ (month + 1)) init
      = init + ∑ m ∈ Finset.Icc 1 n, cash / (1 + rate) ^ m := by
  induction n with
  | zero => simp
  | succ k ih =>
    rw [List.range_succ, List.foldl_append, ih]
    simp only [List.foldl_cons, List.foldl_nil]
    rw [Finset.sum_Icc_succ_top (by omega : 1 ≤ k + 1)]
    ring

/-! ### Claim theorems -/

/-- Claim C1, counterexample: the `cost_per_request` field returned by
`calculate_monthly_cost(AUTOGEN, OPENAI_GPT4O, 10000)` with no custom tokens
is not 0.025872, because the code rounds it to 4 decimal places. -/
theorem monthly_cost_example_cpr_ne :
    (calculate_monthly_cost .autogen .openai_gpt4o 10000 none).cost_per_request
      ≠ 25872 / 1000000 := by
  norm_num [calculate_monthly_cost, calculate_cost_per_request, FRAMEWORK_METADATA,
    MODEL_PRICING, PricingData.average_cost, pyOrInt, _estimate_infrastructure_cost,
    _estimate_monitoring_cost, pyRound, roundHalfEven]

/-- Claim C1, amended: `calculate_monthly_cost(AUTOGEN, OPENAI_GPT4O, 10000)`
with no custom tokens returns `cost_per_request = 0.0259` (the exact value
0.025872 rounded to 4 decimals), `api_cost = 258.72`,
`infrastructure_cost = 320`, `monitoring_cost = 125`, `total_cost = 703.72`. -/
theorem monthly_cost_example_values :
    (calculate_monthly_cost .autogen .openai_gpt4o 10000 none).cost_per_request = 259 / 10000
    ∧ (calculate_monthly_cost .autogen .openai_gpt4o 10000 none).api_cost = 25872 / 100
    ∧ (calculate_monthly_cost .autogen .openai_gpt4o 10000 none).infrastructure_cost = 320
    ∧ (calculate_monthly_cost .autogen .openai_gpt4o 10000 none).monitoring_cost = 125
    ∧ (calculate_monthly_cost .autogen .openai_gpt4o 10000 none).total_cost = 70372 / 100 := by
  refine ⟨?_, ?_, ?_, ?_, ?_⟩ <;>
    norm_num [calculate_monthly_cost, calculate_cost_per_request, FRAMEWORK_METADATA,
      MODEL_PRICING, PricingData.average_cost, pyOrInt, _estimate_infrastructure_cost,
      _estimate_monitoring_cost, pyRound, roundHalfEven]

/-- Claim C2, counterexample: at semantic_kernel, GPT-4o, 10001 requests the
returned `total_cost` (650.95, rounded from the exact sum 650.945592) differs
from the sum of the returned rounded components
205.94 + 320.00 + 125 = 650.94, because the exact infrastructure cost 320.005
rounds down to 320 on its own. -/
theorem total_cost_ne_component_sum :
    (calculate_monthly_cost .semantic_kernel .openai_gpt4o 10001 none).total_cost
      ≠ (calculate_monthly_cost .semantic_kernel .openai_gpt4o 10001 none).api_cost
        + (calculate_monthly_cost .semantic_kernel .openai_gpt4o 10001 none).infrastructure_cost
        + (calculate_monthly_cost .semantic_kernel .openai_gpt4o 10001 none).monitoring_cost := by
  norm_num [calculate_monthly_cost, calculate_cost_per_request, FRAMEWORK_METADATA,
    MODEL_PRICING, PricingData.average_cost, pyOrInt, _estimate_infrastructure_cost,
    _estimate_monitoring_cost, pyRound, roundHalfEven]

/-- Claim C2, amended: `total_cost` is the 2-decimal rounding of the exact
(pre-rounding) sum of the three components, so it tracks the sum of the three
independently rounded components only up to rounding error, never differing
from it by more than 0.02. -/
theorem total_cost_close_to_component_sum (F : Framework) (M : ModelProvider)
    (r : ℤ) (tokens : Option ℤ) :
    |(calculate_monthly_cost F M r tokens).total_cost
      - ((calculate_monthly_cost F M r tokens).api_cost
        + (calculate_monthly_cost F M r tokens).infrastructure_cost
        + (calculate_monthly_cost F M r tokens).monitoring_cost)| ≤ 1 / 50 := by
  rw [monthly_total_def, monthly_api_def, monthly_infra_def, monthly_mon_def]
  have h1 := abs_pyRound_sub (calculate_cost_per_request F M tokens * (r : ℚ)
    + _estimate_infrastructure_cost r + _estimate_monitoring_cost r) 2
  have h2 := abs_pyRound_sub (calculate_cost_per_request F M tokens * (r : ℚ)) 2
  have h3 := abs_pyRound_sub (_estimate_infrastructure_cost r) 2
  have h4 := abs_pyRound_sub (_estimate_monitoring_cost r) 2
  rw [abs_le] at h1 h2 h3 h4 ⊢
  norm_num at h1 h2 h3 h4 ⊢
  constructor <;> linarith

/-- Claim C4: with a valid (positive) optional token override, the returned
total monthly cost is monotone non-decreasing in requests_per_month. -/
theorem total_cost_monotone (F : Framework) (M : ModelProvider) (tokens : Option ℤ)
    (htok : ∀ t ∈ tokens, 0 < t) (r1 r2 : ℤ) (h1 : 0 < r1) (h12 : r1 ≤ r2) :
    (calculate_monthly_cost F M r1 tokens).total_cost
      ≤ (calculate_monthly_cost F M r2 tokens).total_cost := by
  rw [monthly_total_def, monthly_total_def]
  apply pyRound_mono
  have hc := cpr_nonneg F M tokens htok
  have hr : (r1 : ℚ) ≤ (r2 : ℚ) := by exact_mod_cast h12
  have happ : calculate_cost_per_request F M tokens * (r1 : ℚ)
      ≤ calculate_cost_per_request F M tokens * (r2 : ℚ) :=
    mul_le_mul_of_nonneg_left hr hc
  have hi := infra_mono h12
  have hm := mon_mono h12
  linarith

/-- Witness for C4 at autogen, GPT-4o, token override 1500, 500 ≤ 2000. -/
theorem total_cost_monotone_witness :
    (∀ t ∈ (some 1500 : Option ℤ), 0 < t) ∧ (0 : ℤ) < 500 ∧ (500 : ℤ) ≤ 2000
    ∧ (calculate_monthly_cost .autogen .openai_gpt4o 500 (some 1500)).total_cost
        ≤ (calculate_monthly_cost .autogen .openai_gpt4o 2000 (some 1500)).total_cost :=
  ⟨by intro t ht; simp at ht; omega, by norm_num, by norm_num,
    total_cost_monotone .autogen .openai_gpt4o (some 1500)
      (by intro t ht; simp at ht; omega) 500 2000 (by norm_num) (by norm_num)⟩

/-- Claim C5: migration savings are antisymmetric in the two frameworks, and
the degenerate migration A→A yields zero monthly savings and zero savings
percentage. -/
theorem migration_savings_antisymm (A B : Framework) (M : ModelProvider)
    (r : ℤ) (hr : 0 < r) :
    (estimate_migration_savings A B M r).monthly_savings
        = -(estimate_migration_savings B A M r).monthly_savings
    ∧ (estimate_migration_savings A A M r).monthly_savings = 0
    ∧ (estimate_migration_savings A A M r).savings_percentage = 0 := by
  refine ⟨?_, ?_, ?_⟩
  · rw [migration_monthly_def, migration_monthly_def,
      monthly_total_def A M r none, monthly_total_def B M r none,
      pyRound_fixed_sub, pyRound_fixed_sub]
    ring
  · rw [migration_monthly_def, sub_self]
    exact pyRound_zero 2
  · rw [migration_pct_def, sub_self, zero_div, zero_mul]
    exact pyRound_zero 1

/-- Witness for C5 at langchain → autogen, GPT-4o, 10000 requests. -/
theorem migration_savings_antisymm_witness :
    (0 : ℤ) < 10000
    ∧ ((estimate_migration_savings .langchain .autogen .openai_gpt4o 10000).monthly_savings
        = -(estimate_migration_savings .autogen .langchain .openai_gpt4o 10000).monthly_savings
      ∧ (estimate_migration_savings .langchain .langchain .openai_gpt4o 10000).monthly_savings = 0
      ∧ (estimate_migration_savings .langchain .langchain
          .openai_gpt4o 10000).savings_percentage = 0) :=
  ⟨by norm_num, migration_savings_antisymm .langchain .autogen .openai_gpt4o 10000 (by norm_num)⟩

/-- Claim C6: the NPV loop equals the standard discounted-cash-flow sum,
rounded to 2 decimals, for every monthly discount rate (the concrete rate
`(1 + 0.10) ** (1/12) - 1` of the source is irrational and enters only as a
parameter), and the dev_cost = 0, savings = 0, horizon = 36 case returns 0. -/
theorem npv_eq_dcf (rate dev cash : ℚ) (n : ℕ) :
    _calculate_npv rate dev cash n
        = pyRound (-dev + ∑ m ∈ Finset.Icc 1 n, cash / (1 + rate) ^ m) 2
    ∧ _calculate_npv rate 0 0 36 = 0 := by
  constructor
  · unfold _calculate_npv
    rw [npvLoop_eq_sum]
  · unfold _calculate_npv
    rw [npvLoop_eq_sum]
    simp [pyRound_zero]

/-- Claim C7, counterexample: at exactly 1000 requests the infrastructure
cost is not 35. -/
theorem infra_at_1000_ne_35 : _estimate_infrastructure_cost 1000 ≠ 35 := by
  norm_num [_estimate_infrastructure_cost]

/-- Claim C7, amended: at exactly 1000 requests the basic tier (strictly
below 1000) is not taken and the infrastructure cost is
`85 + (1000 - 1000) * 0.01 = 85`. -/
theorem infra_at_1000_eq_85 : _estimate_infrastructure_cost 1000 = 85 := by
  norm_num [_estimate_infrastructure_cost]

/-- Claim C8, code evaluated at the failing input: the code performs no input
validation, so `calculate_monthly_cost(AUTOGEN, OPENAI_GPT4O, -5)` returns a
CostBreakdown (with a negative api_cost) instead of failing with
InvalidParameter, and a negative custom token count is likewise accepted,
yielding a negative per-request cost. -/
theorem monthly_cost_accepts_nonpositive_inputs :
    (calculate_monthly_cost .autogen .openai_gpt4o (-5) none).api_cost = -13 / 100
    ∧ (calculate_monthly_cost .autogen .openai_gpt4o (-5) none).infrastructure_cost = 35
    ∧ (calculate_monthly_cost .autogen .openai_gpt4o (-5) none).monitoring_cost = 15
    ∧ (calculate_monthly_cost .autogen .openai_gpt4o (-5) none).total_cost = 4987 / 100
    ∧ calculate_cost_per_request .autogen .openai_gpt4o (some (-100)) < 0 := by
  refine ⟨?_, ?_, ?_, ?_, ?_⟩ <;>
    norm_num [calculate_monthly_cost, calculate_cost_per_request, FRAMEWORK_METADATA,
      MODEL_PRICING, PricingData.average_cost, pyOrInt, _estimate_infrastructure_cost,
      _estimate_monitoring_cost, pyRound, roundHalfEven]

/-- Claim C9: for positive request volumes the denominator of
savings_percentage — the current framework's total monthly cost — is at least
50, hence nonzero. -/
theorem migration_denominator_ge_50 (A B : Framework) (M : ModelProvider)
    (r : ℤ) (hr : 0 < r) :
    50 ≤ (estimate_migration_savings A B M r).current_monthly_cost
    ∧ (estimate_migration_savings A B M r).current_monthly_cost
        = (calculate_monthly_cost A M r none).total_cost
    ∧ (estimate_migration_savings A B M r).current_monthly_cost ≠ 0 := by
  have hge : 50 ≤ (estimate_migration_savings A B M r).current_monthly_cost := by
    rw [migration_current_def, monthly_total_def]
    have h1 : (0 : ℚ) ≤ calculate_cost_per_request A M none * (r : ℚ) :=
      mul_nonneg (cpr_nonneg A M none (by simp)) (by exact_mod_cast hr.le)
    have h2 := infra_ge_35 r
    have h3 := mon_ge_15 r
    have h50 : pyRound 50 2 = 50 := by
      have h := pyRound_int_div_pow 5000 2
      norm_num at h
      exact h
    calc (50 : ℚ) = pyRound 50 2 := h50.symm
      _ ≤ pyRound (calculate_cost_per_request A M none * (r : ℚ)
            + _estimate_infrastructure_cost r + _estimate_monitoring_cost r) 2 :=
        pyRound_mono 2 (by linarith)
  exact ⟨hge, migration_current_def A B M r, by intro h; rw [h] at hge; norm_num at hge⟩

/-- Witness for C9 at autogen → crewai, GPT-4o, 10000 requests. -/
theorem migration_denominator_ge_50_witness :
    (0 : ℤ) < 10000
    ∧ (50 ≤ (estimate_migration_savings .autogen .crewai .openai_gpt4o 10000).current_monthly_cost
      ∧ (estimate_migration_savings .autogen .crewai .openai_gpt4o 10000).current_monthly_cost
          = (calculate_monthly_cost .autogen .openai_gpt4o 10000 none).total_cost
      ∧ (estimate_migration_savings .autogen .crewai
          .openai_gpt4o 10000).current_monthly_cost ≠ 0) :=
  ⟨by norm_num, migration_denominator_ge_50 .autogen .crewai .openai_gpt4o 10000 (by norm_num)⟩

/-- Claim C10: a custom token count of exactly 0 is silently treated as if no
override were supplied: `calculate_cost_per_request` with `some 0` equals the
call with `none`, the framework average being used in both. -/
theorem cpr_zero_tokens_eq_none (F : Framework) (M : ModelProvider) :
    calculate_cost_per_request F M (some 0) = calculate_cost_per_request F M none := rfl

/-- Claim C3: `compare_frameworks` returns each of the five frameworks
exactly once — its framework column is a permutation of the declaration
order — and is ordered ascending by total_cost with ties broken stably by
the declaration order. -/
theorem compare_frameworks_sorted (M : ModelProvider) (r : ℤ) (tokens : Option ℤ)
    (hr : 0 < r) :
    ((compare_frameworks M r tokens).map (fun e => e.framework)).Perm
        frameworkDeclarationOrder
    ∧ (compare_frameworks M r tokens).Pairwise (fun a b =>
        a.costs.total_cost < b.costs.total_cost ∨
          (a.costs.total_cost = b.costs.total_cost ∧
            frameworkIndex a.framework < frameworkIndex b.framework)) := by
  have hperm : (compare_frameworks M r tokens).Perm
      (frameworkDeclarationOrder.map fun framework =>
        ({ framework := framework
           costs := calculate_monthly_cost framework M r tokens
           framework_name := frameworkDisplayName framework
           description := (FRAMEWORK_METADATA framework).description } : ComparisonEntry)) :=
    List.perm_insertionSort _ _
  have hmap : ((frameworkDeclarationOrder.map fun framework =>
      ({ framework := framework
         costs := calculate_monthly_cost framework M r tokens
         framework_name := frameworkDisplayName framework
         description := (FRAMEWORK_METADATA framework).description } : ComparisonEntry)).map
      fun e => e.framework) = frameworkDeclarationOrder := by
    simp [frameworkDeclarationOrder]
  constructor
  · rw [← hmap]
    exact hperm.map fun e => e.framework
  · have hsorted : (compare_frameworks M r tokens).Pairwise comparisonOrder :=
      List.sorted_insertionSort comparisonOrder _
    have hnodup : (frameworkDeclarationOrder.map fun framework =>
        ({ framework := framework
           costs := calculate_monthly_cost framework M r tokens
           framework_name := frameworkDisplayName framework
           description := (FRAMEWORK_METADATA framework).description } : ComparisonEntry)).Pairwise
        (fun a b => a.framework ≠ b.framework) := by
      rw [List.pairwise_map]
      exact (by decide : frameworkDeclarationOrder.Pairwise (fun a b => a ≠ b))
    have hnodup2 : (compare_frameworks M r tokens).Pairwise
        (fun a b => a.framework ≠ b.framework) :=
      (hperm.pairwise_iff fun h => Ne.symm h).mpr hnodup
    refine (hsorted.and hnodup2).imp ?_
    intro a b hab
    rcases hab with ⟨hlt | ⟨heq, hle⟩, hne⟩
    · exact Or.inl hlt
    · exact Or.inr ⟨heq, lt_of_le_of_ne hle fun hidx => hne (frameworkIndex_inj _ _ hidx)⟩

/-- Witness for C3 at GPT-4o, 10000 requests, no token override. -/
theorem compare_frameworks_sorted_witness :
    (0 : ℤ) < 10000
    ∧ (((compare_frameworks .openai_gpt4o 10000 none).map (fun e => e.framework)).Perm
          frameworkDeclarationOrder
      ∧ (compare_frameworks .openai_gpt4o 10000 none).Pairwise (fun a b =>
          a.costs.total_cost < b.costs.total_cost ∨
            (a.costs.total_cost = b.costs.total_cost ∧
              frameworkIndex a.framework < frameworkIndex b.framework))) :=
  ⟨by norm_num, compare_frameworks_sorted .openai_gpt4o 10000 none (by norm_num)⟩
